import Mathlib

set_option maxHeartbeats 1600000
set_option maxRecDepth 4096

/- Shallow embedding of src/worker.ts: a Cloudflare worker that serves image
requests out of an R2 bucket, falling back to the origin host.  JavaScript
runtime primitives that the worker merely calls (RegExp.exec on the two
configured patterns, decodeURIComponent, Date.parse, Date.toUTCString,
URLSearchParams serialization, the range-parser npm library, fetch, and the
R2 bucket contents) are modelled as oracle fields of a World structure; the
worker's own logic is translated statement by statement from the source. -/

/-- An incoming HTTP request as the worker sees it.  Header and query
parameter names are stored lowercase, as the JS Headers class normalizes
them; the body is abstract. -/
structure HttpRequest where
  method : String
  host : String
  pathname : String
  searchParams : List (String × String)
  headers : List (String × String)
  body : Option String
deriving Repr, DecidableEq

/-- A request handed to fetch: either the client request forwarded
(bypass or miss) or the HEAD revalidation probe. -/
structure OutRequest where
  method : String
  host : String
  pathname : String
  searchParams : List (String × String)
  headers : List (String × String)
  body : Option String
  redirect : String
deriving Repr, DecidableEq

/-- A response obtained from fetch. -/
structure OriginResponse where
  status : Nat
  body : Option String
  headers : List (String × String)
deriving Repr, DecidableEq

/-- Result of a fetch call: a response, or a thrown network error. -/
inductive FetchResult where
  | err (msg : String)
  | resp (r : OriginResponse)
deriving Repr, DecidableEq

/-- The httpMetadata bag of an R2 object (HTTP representation metadata). -/
structure R2HttpMetadata where
  cacheControl : Option String := none
  contentType : Option String := none
  contentEncoding : Option String := none
  contentLanguage : Option String := none
  contentDisposition : Option String := none
  cacheExpiry : Option Int := none
deriving Repr, DecidableEq

/-- An object stored in the R2 bucket: metadata plus the full body.
`etag` is the unquoted entity-tag; `uploaded` is a millisecond timestamp. -/
structure StoredObject where
  size : Nat
  etag : String
  uploaded : Int
  httpMetadata : Option R2HttpMetadata := none
  body : String
deriving Repr, DecidableEq

/-- The `file` variable of handleRequest:
`R2Object | R2ObjectBody | null | undefined`.  `withBody` carries the
(possibly range-sliced) body returned by a get. -/
inductive FileRef where
  | undef
  | nullF
  | meta (o : StoredObject)
  | withBody (o : StoredObject) (b : String)
deriving Repr, DecidableEq

/-- hasBody from src/worker.ts lines 29-31: true exactly for an
R2ObjectBody (an object carrying a body). -/
def FileRef.hasBody : FileRef → Bool
  | .withBody _ _ => true
  | _ => false

/-- JS truthiness of `file` (an object is truthy, null/undefined are not),
returning the underlying object when truthy. -/
def FileRef.obj? : FileRef → Option StoredObject
  | .meta o => some o
  | .withBody o _ => some o
  | _ => none

/-- The ParsedRange type of src/worker.ts line 23:
`{ offset, length } | { suffix }`. -/
inductive ParsedRange where
  | offsetLength (offset length : Nat)
  | suffix (n : Nat)
deriving Repr, DecidableEq

/-- rangeHasLength from src/worker.ts lines 25-27. -/
def rangeHasLength : ParsedRange → Bool
  | .offsetLength _ _ => true
  | _ => false

/-- hasSuffix from src/worker.ts lines 33-35. -/
def hasSuffix : ParsedRange → Bool
  | .suffix _ => true
  | _ => false

/-- getRangeHeader from src/worker.ts lines 37-40. -/
def getRangeHeader (range : ParsedRange) (fileSize : Nat) : String :=
  "bytes " ++
    toString (match range with
      | .suffix n => fileSize - n
      | .offsetLength o _ => o) ++
    "-" ++
    toString (match range with
      | .suffix _ => fileSize - 1
      | .offsetLength o l => o + l - 1) ++
    "/" ++ toString fileSize

/-- Result of the range-parser library (worker.ts line 78): -1 means
unsatisfiable, -2 means malformed, otherwise a typed list of
start/end pairs. -/
inductive ParseRangeResult where
  | unsat
  | malformed
  | ranges (type : String) (rs : List (Nat × Nat))
deriving Repr, DecidableEq

/-- The onlyIf conditions of an R2 get (R2Conditional). -/
structure OnlyIf where
  etagMatches : Option String := none
  etagDoesNotMatch : Option String := none
  uploadedBefore : Option Int := none
  uploadedAfter : Option Int := none
deriving Repr, DecidableEq

/-- Trace of one R2 bucket call made by the worker, in order. -/
inductive StoreOp where
  | head (key : String)
  | get (key : String) (onlyIf : OnlyIf) (range : Option ParsedRange)
deriving Repr, DecidableEq

/-- The response returned to the client. -/
structure HttpResponse where
  status : Nat
  body : Option String
  headers : List (String × String) := []
deriving Repr, DecidableEq

/-- The observable outcome of one worker invocation: the client response
plus a trace of the interactions the worker performed (derived cache key,
request forwarded to the origin, HEAD revalidation probe, background
store-populate, R2 calls, and whether the response was assembled from the
store). -/
structure Outcome where
  response : HttpResponse
  key : Option String := none
  originReq : Option OutRequest := none
  probeReq : Option OutRequest := none
  putKey : Option String := none
  storeOps : List StoreOp := []
  servedFromStore : Bool := false
deriving Repr, DecidableEq

/-- The worker environment (worker.ts lines 3-11).  IMAGE_REGEX and
IMAGE_REGEX_POST are regex source strings; their compiled behaviour is the
execGET/execPOST oracle of the World. -/
structure EnvCfg where
  ALLOWED_ORIGINS : Option String
  CACHE_CONTROL : Option String
  PARAMS_KEY : String
  IMAGE_HOST : String
deriving Repr, DecidableEq

/-- The JS runtime and external collaborators, as oracles.  An exec oracle
returns, when the pattern matches, the pair of the whole matched text
(element 0 of the JS match array) and the list of capture groups
(elements 1..). -/
structure World where
  execGET : String → Option (String × List (Option String))
  execPOST : String → Option (String × List (Option String))
  decodeURIComponent : String → String
  dateParse : String → Option Int
  toUTCString : Int → String
  encodeParams : List (String × String) → String
  parseRange : Nat → String → ParseRangeResult
  fetch : OutRequest → FetchResult
  store : String → Option StoredObject

/-- Whether the first list is a prefix of the second (structural, so that
closed instances evaluate by kernel reduction). -/
def listStartsWith : List Char → List Char → Bool
  | [], _ => true
  | _ :: _, [] => false
  | a :: as, b :: bs => a = b && listStartsWith as bs

/-- Whether the pattern occurs as a contiguous sublist. -/
def listContains (pat : List Char) : List Char → Bool
  | [] => listStartsWith pat []
  | c :: rest => listStartsWith pat (c :: rest) || listContains pat rest

/-- String.prototype.startsWith. -/
def jsStartsWith (s pat : String) : Bool :=
  listStartsWith pat.data s.data

/-- String.prototype.endsWith. -/
def jsEndsWith (s pat : String) : Bool :=
  listStartsWith pat.data.reverse s.data.reverse

/-- The whitespace class trimmed by String.prototype.trim (the common
ASCII subset). -/
def jsIsWhitespace (c : Char) : Bool :=
  c = ' ' || c = '\t' || c = '\n' || c = '\r'

/-- String.prototype.trim. -/
def jsTrim (s : String) : String :=
  String.mk (((s.data.dropWhile jsIsWhitespace).reverse.dropWhile jsIsWhitespace).reverse)

/-- Helper for splitting on the comma separator, accumulating the current
field in reverse. -/
def splitCommaAux : List Char → List Char → List String
  | [], acc => [String.mk acc.reverse]
  | c :: cs, acc =>
    if c = ',' then String.mk acc.reverse :: splitCommaAux cs []
    else splitCommaAux cs (c :: acc)

/-- String.prototype.split with separator comma (worker.ts line 71);
the empty string yields one empty field, as in JS. -/
def jsSplitComma (s : String) : List String :=
  splitCommaAux s.data []

/-- JS truthiness of a `string | undefined` value: defined and nonempty. -/
def strOptTruthy : Option String → Bool
  | some s => decide (s ≠ "")
  | none => false

/-- JS truthiness of a `number` that is NaN (none) or an integer:
falsy exactly when NaN or 0. -/
def tsTruthy : Option Int → Bool
  | some v => decide (v ≠ 0)
  | none => false

/-- Headers.get: the value of the (lowercase) header name, or null. -/
def headersGet (hs : List (String × String)) (name : String) : Option String :=
  (hs.find? (fun p => decide (p.1 = name))).map (fun p => p.2)

/-- URLSearchParams.get: first value of the parameter, or null. -/
def searchParamsGet (ps : List (String × String)) (name : String) : Option String :=
  (ps.find? (fun p => decide (p.1 = name))).map (fun p => p.2)

/-- The replace of worker.ts line 63: `replace(/^['"]|['"]$/g, "")` removes
one leading and one trailing quote character (single or double). -/
def stripEdgeQuotes (s : String) : String :=
  let s1 := if jsStartsWith s "\"" ∨ jsStartsWith s "'" then s.drop 1 else s
  if jsEndsWith s1 "\"" ∨ jsEndsWith s1 "'" then s1.dropRight 1 else s1

/-- getHeaderEtag from src/worker.ts line 63:
`header?.trim().replace(/^['"]|['"]$/g, "")`. -/
def getHeaderEtag (header : Option String) : Option String :=
  header.map (fun h => stripEdgeQuotes (jsTrim h))

/-- String.prototype.includes, used on cache-control at worker.ts line 129. -/
def jsIncludes (s pat : String) : Bool :=
  listContains pat.data s.data

/-- The private test of worker.ts line 129:
`file.httpMetadata?.cacheControl?.includes("private")`, with JS optional
chaining (undefined collapses to false under the outer negation). -/
def includesPrivate (o : StoredObject) : Bool :=
  match o.httpMetadata.bind (fun md => md.cacheControl) with
  | some cc => jsIncludes cc "private"
  | none => false

/-- httpEtag of an R2 object: the quoted form of the etag (the source
comment at worker.ts line 98 notes that httpEtag already has quotes). -/
def httpEtag (o : StoredObject) : String :=
  "\"" ++ o.etag ++ "\""

/-- Conjunction of the onlyIf conditions against a stored object. -/
def onlyIfPasses (o : StoredObject) (c : OnlyIf) : Bool :=
  (match c.etagMatches with
    | some e => decide (o.etag = e)
    | none => true) &&
  (match c.etagDoesNotMatch with
    | some e => decide (o.etag ≠ e)
    | none => true) &&
  (match c.uploadedBefore with
    | some t => decide (o.uploaded < t)
    | none => true) &&
  (match c.uploadedAfter with
    | some t => decide (t < o.uploaded)
    | none => true)

/-- Byte-range slice of a stored body per the R2 range grammar. -/
def sliceBody (b : String) (range : Option ParsedRange) : String :=
  match range with
  | none => b
  | some (.offsetLength off len) => (b.drop off).take len
  | some (.suffix n) => b.drop (b.length - n)

/-- R2Bucket.head: the object's metadata, or null when absent. -/
def r2Head (store : String → Option StoredObject) (key : String) : FileRef :=
  match store key with
  | none => .nullF
  | some o => .meta o

/-- R2Bucket.get with onlyIf and range: null when the key is absent, the
object without body when a precondition fails, otherwise the object with
its (range-sliced) body. -/
def r2Get (store : String → Option StoredObject) (key : String)
    (c : OnlyIf) (range : Option ParsedRange) : FileRef :=
  match store key with
  | none => .nullF
  | some o =>
    if onlyIfPasses o c then .withBody o (sliceBody o.body range) else .meta o

/-- fetch(request) / new Request(request, ...): the forwarded request keeps
every component of the client request; redirect defaults to follow. -/
def toOutRequest (req : HttpRequest) : OutRequest :=
  { method := req.method, host := req.host, pathname := req.pathname,
    searchParams := req.searchParams, headers := req.headers,
    body := req.body, redirect := "follow" }

/-- The HEAD revalidation probe of worker.ts line 130:
`new Request(request, { method: "HEAD", redirect: "manual" })`. -/
def probeOut (req : HttpRequest) : OutRequest :=
  { toOutRequest req with method := "HEAD", redirect := "manual" }

/-- The header stripping of worker.ts lines 156-159 (miss path):
delete if-match, if-none-match and range before forwarding. -/
def missHeaders (hs : List (String × String)) : List (String × String) :=
  ((hs.filter (fun p => decide (p.1 ≠ "if-match"))).filter
      (fun p => decide (p.1 ≠ "if-none-match"))).filter
    (fun p => decide (p.1 ≠ "range"))

/-- The origin request built on a miss (worker.ts line 162). -/
def missOut (req : HttpRequest) : OutRequest :=
  { toOutRequest req with headers := missHeaders req.headers }

/-- Turning an origin fetch response into the client response
(returned verbatim, worker.ts line 173). -/
def originToResponse (r : OriginResponse) : HttpResponse :=
  { status := r.status, body := r.body, headers := r.headers }

/-- Response.ok of the fetch API: status in 200..299 (worker.ts line 168). -/
def respOk (r : OriginResponse) : Bool :=
  decide (200 ≤ r.status ∧ r.status ≤ 299)

/-- The response headers assembled on a HIT (worker.ts lines 137-152),
in source order. -/
def assembleHeaders (w : World) (env : EnvCfg) (o : StoredObject)
    (range : Option ParsedRange) : List (String × String) :=
  [("accept-ranges", "bytes"),
   ("access-control-allow-origin", env.ALLOWED_ORIGINS.getD ""),
   ("etag", httpEtag o),
   ("cache-control",
     (o.httpMetadata.bind (fun md => md.cacheControl)).getD
       (env.CACHE_CONTROL.getD "")),
   ("expires",
     ((o.httpMetadata.bind (fun md => md.cacheExpiry)).map w.toUTCString).getD ""),
   ("last-modified", w.toUTCString o.uploaded),
   ("content-encoding",
     (o.httpMetadata.bind (fun md => md.contentEncoding)).getD ""),
   ("content-type",
     (o.httpMetadata.bind (fun md => md.contentType)).getD "application/octet-stream"),
   ("content-language",
     (o.httpMetadata.bind (fun md => md.contentLanguage)).getD ""),
   ("content-disposition",
     (o.httpMetadata.bind (fun md => md.contentDisposition)).getD ""),
   ("content-range",
     match range with
     | some r => getRangeHeader r o.size
     | none => ""),
   ("content-length",
     toString (match range with
       | some (.offsetLength _ l) => l
       | some (.suffix n) => n
       | none => o.size))]

/-- The url variable of worker.ts lines 45-46: new URL(request.url) with
its host overwritten by IMAGE_HOST.  Only pathname and searchParams are
ever read from it afterwards; the rewritten host is never used. -/
structure UrlParts where
  host : String
  pathname : String
  searchParams : List (String × String)
deriving Repr, DecidableEq

/-- Lines 43-48: pick the method's pattern, exec it on the decoded path
minus its first character; `const [match]` destructures element 0 of the
match array, the WHOLE MATCHED TEXT. -/
def execMatch (w : World) (method pathname : String) : Option String :=
  ((if method = "POST" then w.execPOST else w.execGET)
      ((w.decodeURIComponent pathname).drop 1)).map (fun r => r.1)

/-- Lines 70-72: the whitelisted query parameters present on the request,
in whitelist order. -/
def whitelistedParams (env : EnvCfg) (searchParams : List (String × String)) :
    List (String × String) :=
  ((jsSplitComma env.PARAMS_KEY).map (fun v => jsTrim v)).foldl (fun acc v =>
    match searchParamsGet searchParams v with
    | some value => acc ++ [(v, value)]
    | none => acc) []

/-- Lines 50-51: the non-cacheable bypass forwards the ORIGINAL request
(whose URL still carries the client host) and returns the origin response
verbatim; a thrown fetch reaches the module wrapper as a 500. -/
def bypassResult (w : World) (req : HttpRequest) : Outcome :=
  let out := toOutRequest req
  match w.fetch out with
  | .err msg =>
    { response := { status := 500, body := some msg }, originReq := some out }
  | .resp r =>
    { response := originToResponse r, originReq := some out }

/-- Lines 75-91: GET range handling.  Left means the terminal 416; Right
carries the file reference so far, the resolved range, and the R2 calls
made. -/
def stageRange (w : World) (req : HttpRequest) (cacheKey : String) :
    Sum (HttpResponse × List StoreOp) (FileRef × Option ParsedRange × List StoreOp) :=
  if req.method = "GET" then
    let rangeHeader := headersGet req.headers "range"
    if strOptTruthy rangeHeader = true then
      let file := r2Head w.store cacheKey
      match file.obj? with
      | some o =>
        match w.parseRange o.size (rangeHeader.getD "") with
        | .ranges "bytes" [(s, e)] =>
          if o.size = e + 1 then
            .inr (file, some (.suffix (o.size - s)), [StoreOp.head cacheKey])
          else
            .inr (file, some (.offsetLength s (e - s + 1)), [StoreOp.head cacheKey])
        | _ =>
          .inl ({ status := 416, body := some "Range Not Satisfiable" },
            [StoreOp.head cacheKey])
      | none => .inr (file, none, [StoreOp.head cacheKey])
    else .inr (.undef, none, [])
  else .inr (.undef, none, [])

/-- Lines 94-102: If-Range gating of a resolved range.  The range is
dropped exactly when (the token does not parse as a date, OR the parsed
date is strictly NEWER than the upload time) AND (the token starts with
the weak marker W slash OR differs from the quoted httpEtag). -/
def applyIfRange (w : World) (file : FileRef) (range : Option ParsedRange)
    (ifRange : Option String) : Option ParsedRange :=
  match file.obj?, range, ifRange with
  | some o, some _, some tok =>
    if tok ≠ "" then
      let maybeDate := w.dateParse tok
      if (match maybeDate with
          | none => true
          | some d => decide (o.uploaded < d)) = true then
        if jsStartsWith tok "W/" = true ∨ tok ≠ httpEtag o then none else range
      else range
    else range
  | _, _, _ => range

/-- Lines 104-114: must-match group (If-Match / If-Unmodified-Since).
Left is the terminal 412. -/
def stageMustMatch (w : World) (key : String) (ifMatch : Option String)
    (ifUnmodifiedSince : Option Int) (file : FileRef) (range : Option ParsedRange) :
    Sum (HttpResponse × List StoreOp) (FileRef × List StoreOp) :=
  if strOptTruthy ifMatch = true ∨ tsTruthy ifUnmodifiedSince = true then
    let onlyIf : OnlyIf :=
      { etagMatches := ifMatch,
        uploadedBefore :=
          if tsTruthy ifUnmodifiedSince = true then ifUnmodifiedSince else none }
    let f := r2Get w.store key onlyIf range
    if f.hasBody = false then
      .inl ({ status := 412, body := some "Precondition Failed" },
        [StoreOp.get key onlyIf range])
    else .inr (f, [StoreOp.get key onlyIf range])
  else .inr (file, [])

/-- Lines 116-124: must-not-match group; if-none-match overrides
if-modified-since completely.  Left is the terminal 304. -/
def stageMustNotMatch (w : World) (key : String) (ifNoneMatch : Option String)
    (ifModifiedSince : Option Int) (file : FileRef) (range : Option ParsedRange) :
    Sum (HttpResponse × List StoreOp) (FileRef × List StoreOp) :=
  if strOptTruthy ifNoneMatch = true ∨ tsTruthy ifModifiedSince = true then
    let p : FileRef × List StoreOp :=
      if strOptTruthy ifNoneMatch = true then
        let onlyIf : OnlyIf := { etagDoesNotMatch := ifNoneMatch }
        (r2Get w.store key onlyIf range, [StoreOp.get key onlyIf range])
      else if tsTruthy ifModifiedSince = true then
        let onlyIf : OnlyIf := { uploadedAfter := ifModifiedSince }
        (r2Get w.store key onlyIf range, [StoreOp.get key onlyIf range])
      else (file, [])
    if p.1.hasBody = false then
      .inl ({ status := 304, body := none }, p.2)
    else .inr p
  else .inr (file, [])

/-- Result of the privacy gate of lines 129-130. -/
inductive GateResult where
  | hit (probe : Option OutRequest)
  | noHit (probe : OutRequest)
  | thrown (msg : String) (probe : OutRequest)
deriving Repr, DecidableEq

/-- Lines 129-130: an object is gated through directly when its
cache-control metadata does not contain the substring private; otherwise a
HEAD probe (method forced to HEAD, redirect manual) must answer with
status < 300 or exactly 304.  A thrown probe fetch becomes a 500 at the
module wrapper. -/
def privacyGate (w : World) (req : HttpRequest) (o : StoredObject) : GateResult :=
  if includesPrivate o = false then .hit none
  else
    let pr := probeOut req
    match w.fetch pr with
    | .err msg => .thrown msg pr
    | .resp r =>
      if r.status < 300 ∨ r.status = 304 then .hit (some pr) else .noHit pr

/-- Lines 132-153: assemble the HIT response.  When the file reference has
no body yet, fetch it (full or ranged) from the store first (`?? file`
keeps the old reference if the get returns null). -/
def hitResponse (w : World) (env : EnvCfg) (key : String) (file0 : FileRef)
    (o : StoredObject) (range : Option ParsedRange) : HttpResponse × List StoreOp :=
  let p : FileRef × List StoreOp :=
    if file0.hasBody = false then
      let g := r2Get w.store key {} range
      ((match g with
        | .nullF => file0
        | _ => g), [StoreOp.get key {} range])
    else (file0, [])
  -- the file reference is still truthy here; getD is only for totality
  let o2 := p.1.obj?.getD o
  let body : Option String :=
    match p.1 with
    | .withBody _ b => if o2.size ≠ 0 then some b else none
    | _ => none
  ({ status := if range.isSome then 206 else 200, body := body,
     headers := assembleHeaders w env o2 range }, p.2)

/-- Lines 154-169: the MISS path.  Conditional and range headers are
stripped, the request is forwarded (a thrown fetch is caught as a 521),
and on a successful GET/POST response with a body a background
store-populate of the cache key is scheduled. -/
def missResult (w : World) (req : HttpRequest) (key : String) (ops : List StoreOp) :
    Outcome :=
  let out := missOut req
  match w.fetch out with
  | .err _ =>
    { response := { status := 521, body := none }, key := some key,
      storeOps := ops, originReq := some out }
  | .resp r =>
    let didPut := (req.method = "GET" ∨ req.method = "POST")
      ∧ respOk r = true ∧ r.body.isSome
    { response := originToResponse r, key := some key, storeOps := ops,
      originReq := some out, putKey := if didPut then some key else none }

/-- Lines 126-173: the final orchestration.  `file ??= head` (line 126),
then the single branching of lines 128-171: privacy-gated HIT, MISS only
when the file reference is strictly null AND no range was resolved, and
the terminal 400 otherwise. -/
def stageFinal (w : World) (env : EnvCfg) (req : HttpRequest) (key : String)
    (file0 : FileRef) (range : Option ParsedRange) (ops0 : List StoreOp) : Outcome :=
  let p : FileRef × List StoreOp :=
    match file0 with
    | .undef | .nullF => (r2Head w.store key, ops0 ++ [StoreOp.head key])
    | _ => (file0, ops0)
  match p.1 with
  | .meta o | .withBody o _ =>
    match privacyGate w req o with
    | .thrown msg pr =>
      { response := { status := 500, body := some msg }, key := some key,
        storeOps := p.2, probeReq := some pr }
    | .hit probe =>
      let hr := hitResponse w env key p.1 o range
      { response := hr.1, key := some key, storeOps := p.2 ++ hr.2,
        probeReq := probe, servedFromStore := true }
    | .noHit pr =>
      -- line 171: the file is truthy so the miss guard (file === null) fails
      { response := { status := 400, body := some "Bad Request" }, key := some key,
        storeOps := p.2, probeReq := some pr }
  | .nullF =>
    if range.isSome then
      -- line 171 again: null file but a range was resolved
      { response := { status := 400, body := some "Bad Request" }, key := some key,
        storeOps := p.2 }
    else missResult w req key p.2
  | .undef =>
    -- unreachable after line 126; JS would fall through to the 400 branch
    { response := { status := 400, body := some "Bad Request" }, key := some key,
      storeOps := p.2 }

/-- handleRequest from src/worker.ts lines 42-174, composed with the
module-level fetch wrapper (lines 13-21) that turns a thrown error into a
status-500 response whose body is the error message.  The stages above
follow the source sections in order; the Outcome records the client
response plus the externally visible interactions. -/
def handleRequest (w : World) (env : EnvCfg) (req : HttpRequest) : Outcome :=
  -- lines 45-46: the url host is rewritten to IMAGE_HOST here, but only
  -- pathname and searchParams of url are ever read afterwards
  let url : UrlParts :=
    { host := env.IMAGE_HOST, pathname := req.pathname, searchParams := req.searchParams }
  let m := execMatch w req.method url.pathname
  if ¬ ((req.method = "GET" ∨ req.method = "HEAD" ∨ req.method = "POST")
        ∧ strOptTruthy m = true) then
    bypassResult w req
  else
    -- lines 63-68
    let ifMatch := getHeaderEtag (headersGet req.headers "if-match")
    let ifNoneMatch := getHeaderEtag (headersGet req.headers "if-none-match")
    let ifModifiedSince := w.dateParse ((headersGet req.headers "if-modified-since").getD "")
    let ifUnmodifiedSince := w.dateParse ((headersGet req.headers "if-unmodified-since").getD "")
    let ifRange := headersGet req.headers "if-range"
    -- line 73
    let params := whitelistedParams env url.searchParams
    let cacheKey :=
      m.getD "" ++ (if params.length > 0 then "+" ++ w.encodeParams params else "")
    match stageRange w req cacheKey with
    | .inl t =>
      { response := t.1, key := some cacheKey, storeOps := t.2 }
    | .inr (file0, range0, ops0) =>
      let range1 := applyIfRange w file0 range0 ifRange
      match stageMustMatch w cacheKey ifMatch ifUnmodifiedSince file0 range1 with
      | .inl t =>
        { response := t.1, key := some cacheKey, storeOps := ops0 ++ t.2 }
      | .inr (file1, ops1) =>
        match stageMustNotMatch w cacheKey ifNoneMatch ifModifiedSince file1 range1 with
        | .inl t =>
          { response := t.1, key := some cacheKey, storeOps := ops0 ++ ops1 ++ t.2 }
        | .inr (file2, ops2) =>
          stageFinal w env req cacheKey file2 range1 (ops0 ++ ops1 ++ ops2)

/-- Modelled from the spec: section 4.1 says the FIRST CAPTURE GROUP of the
pattern match, not the whole matched text, is the cache key's path
component.  Given an exec result this extracts capture group 1. -/
def specCacheKeyPath (execRes : Option (String × List (Option String))) : Option String :=
  execRes.bind (fun r => r.2.head?.bind id)

/-- True exactly when the parse result is a single range of unit bytes
(the acceptance pattern of worker.ts line 81). -/
def isSingleByteRange : ParseRangeResult → Bool
  | .ranges "bytes" [(_, _)] => true
  | _ => false

/-- A concrete world for witnesses: every path matches itself whole (no
capture groups), a small Date.parse table, a small range-parser table, an
origin that always answers 200 with body XYZ, and an empty store. -/
def baseWorld : World :=
  { execGET := fun s => some (s, []),
    execPOST := fun s => some (s, []),
    decodeURIComponent := id,
    dateParse := fun s =>
      if s = "t0" then some 0
      else if s = "t1000" then some 1000
      else if s = "t3000" then some 3000
      else none,
    toUTCString := fun _ => "",
    encodeParams := fun _ => "",
    parseRange := fun _ h =>
      if h = "bytes=0-0" then .ranges "bytes" [(0, 0)]
      else if h = "multi" then .ranges "bytes" [(0, 0), (2, 2)]
      else .malformed,
    fetch := fun _ => .resp { status := 200, body := some "XYZ", headers := [] },
    store := fun _ => none }

/-- A concrete environment for witnesses. -/
def baseEnv : EnvCfg :=
  { ALLOWED_ORIGINS := none, CACHE_CONTROL := none, PARAMS_KEY := "",
    IMAGE_HOST := "origin.example" }

/-- A concrete non-private stored object. -/
def objA : StoredObject :=
  { size := 3, etag := "deadbeef", uploaded := 2000, body := "XYZ" }

/-- A concrete stored object whose cache-control marks it private. -/
def objPriv : StoredObject :=
  { size := 3, etag := "deadbeef", uploaded := 2000,
    httpMetadata := some { cacheControl := some "private" }, body := "XYZ" }

/-- A store holding objA under the key pic. -/
def storeA : String → Option StoredObject :=
  fun k => if k = "pic" then some objA else none

/-- A store holding objPriv under the key pic. -/
def storePriv : String → Option StoredObject :=
  fun k => if k = "pic" then some objPriv else none

/-- baseWorld with objA stored under pic. -/
def worldA : World := { baseWorld with store := storeA }

/-- baseWorld with objPriv stored under pic. -/
def worldPriv : World := { baseWorld with store := storePriv }

/-- baseWorld whose GET pattern matches the path ab wholly while capturing
only its second letter as group 1 (distinguishes element 0 from group 1). -/
def worldC2 : World :=
  { baseWorld with execGET := fun s => if s = "ab" then some ("ab", [some "b"]) else none }

/-- A concrete request to path pic on the client host. -/
def mkReq (method : String) (hs : List (String × String)) : HttpRequest :=
  { method := method, host := "client.example", pathname := "/pic",
    searchParams := [], headers := hs, body := none }

/-- A concrete GET request to path ab (for the worldC2 pattern). -/
def reqAB : HttpRequest :=
  { method := "GET", host := "client.example", pathname := "/ab",
    searchParams := [], headers := [], body := none }

theorem bypassResult_originReq (w : World) (req : HttpRequest) :
    (bypassResult w req).originReq = some (toOutRequest req) := by
  unfold bypassResult
  dsimp only
  split <;> rfl

theorem privacyGate_cases (w : World) (req : HttpRequest) (o : StoredObject) :
    privacyGate w req o = .hit none
      ∨ privacyGate w req o = .hit (some (probeOut req))
      ∨ privacyGate w req o = .noHit (probeOut req)
      ∨ ∃ m, privacyGate w req o = .thrown m (probeOut req) := by
  unfold privacyGate
  dsimp only
  split
  · exact Or.inl rfl
  · split
    · exact Or.inr (Or.inr (Or.inr ⟨_, rfl⟩))
    · split
      · exact Or.inr (Or.inl rfl)
      · exact Or.inr (Or.inr (Or.inl rfl))

theorem missResult_originReq (w : World) (req : HttpRequest) (key : String)
    (ops : List StoreOp) :
    (missResult w req key ops).originReq = some (missOut req) := by
  unfold missResult
  dsimp only
  split <;> rfl

theorem stageFinal_originReq (w : World) (env : EnvCfg) (req : HttpRequest)
    (key : String) (f : FileRef) (r : Option ParsedRange) (ops : List StoreOp) :
    (stageFinal w env req key f r ops).originReq = none
      ∨ (stageFinal w env req key f r ops).originReq = some (missOut req) := by
  unfold stageFinal
  dsimp only
  repeat' split
  all_goals simp [missResult_originReq]

theorem stageFinal_probeReq (w : World) (env : EnvCfg) (req : HttpRequest)
    (key : String) (f : FileRef) (r : Option ParsedRange) (ops : List StoreOp) :
    (stageFinal w env req key f r ops).probeReq = none
      ∨ (stageFinal w env req key f r ops).probeReq = some (probeOut req) := by
  unfold stageFinal
  dsimp only
  split
  · rename_i o heq
    rcases privacyGate_cases w req o with hc | hc | hc | ⟨m, hc⟩ <;> rw [hc] <;> simp
  · rename_i o b heq
    rcases privacyGate_cases w req o with hc | hc | hc | ⟨m, hc⟩ <;> rw [hc] <;> simp
  · split
    · simp
    · unfold missResult
      dsimp only
      split <;> simp
  · simp

theorem handleRequest_originReq_shape (w : World) (env : EnvCfg) (req : HttpRequest) :
    (handleRequest w env req).originReq = none
      ∨ (handleRequest w env req).originReq = some (toOutRequest req)
      ∨ (handleRequest w env req).originReq = some (missOut req) := by
  unfold handleRequest
  dsimp only
  split
  · exact Or.inr (Or.inl (bypassResult_originReq w req))
  · repeat' split
    all_goals
      first
      | (left; rfl)
      | exact (stageFinal_originReq w env req _ _ _ _).elim
          (fun h => Or.inl h) (fun h => Or.inr (Or.inr h))

theorem handleRequest_probeReq_shape (w : World) (env : EnvCfg) (req : HttpRequest) :
    (handleRequest w env req).probeReq = none
      ∨ (handleRequest w env req).probeReq = some (probeOut req) := by
  unfold handleRequest
  dsimp only
  split
  · left; unfold bypassResult; dsimp only; split <;> rfl
  · repeat' split
    all_goals
      first
      | (left; rfl)
      | exact (stageFinal_probeReq w env req _ _ _ _).elim
          (fun h => Or.inl h) (fun h => Or.inr h)

/-- C1 (corrected): every request forwarded to the origin (bypass or miss)
keeps the ORIGINAL target host — the IMAGE_HOST assignment at worker.ts
line 46 is never used by an outgoing fetch — while path, query, method and
body are preserved; the HEAD revalidation probe likewise keeps host, path,
query and body, with the method forced to HEAD. -/
theorem c1_forwarded_request_preserved (w : World) (env : EnvCfg) (req : HttpRequest)
    (r : OutRequest) :
    ((handleRequest w env req).originReq = some r →
      r.host = req.host ∧ r.pathname = req.pathname ∧ r.searchParams = req.searchParams
        ∧ r.method = req.method ∧ r.body = req.body)
    ∧ ((handleRequest w env req).probeReq = some r →
      r.host = req.host ∧ r.pathname = req.pathname ∧ r.searchParams = req.searchParams
        ∧ r.method = "HEAD" ∧ r.body = req.body) := by
  constructor
  · intro h
    rcases handleRequest_originReq_shape w env req with h0 | h0 | h0
    · rw [h0] at h; exact Option.noConfusion h
    · rw [h0] at h; injection h with h2; subst h2; simp [toOutRequest]
    · rw [h0] at h; injection h with h2; subst h2; simp [missOut, toOutRequest]
  · intro h
    rcases handleRequest_probeReq_shape w env req with h0 | h0
    · rw [h0] at h; exact Option.noConfusion h
    · rw [h0] at h; injection h with h2; subst h2; simp [probeOut, toOutRequest]

/-- C1 counterexample: for a non-cacheable PUT request the worker forwards
the ORIGINAL request, whose target host is still the client host and not
the configured IMAGE_HOST, so the claimed host rewrite does not happen. -/
theorem c1_counterexample :
    (handleRequest baseWorld baseEnv (mkReq "PUT" [])).originReq.map (fun r => r.host)
        = some "client.example"
      ∧ baseEnv.IMAGE_HOST = "origin.example"
      ∧ ("client.example" : String) ≠ "origin.example" := by
  refine ⟨by decide, by decide, by decide⟩

/-- C1 witness: instantiates the preservation theorem on a concrete
bypassed request. -/
theorem c1_witness :
    (handleRequest baseWorld baseEnv (mkReq "PUT" [])).originReq
        = some (toOutRequest (mkReq "PUT" []))
      ∧ (toOutRequest (mkReq "PUT" [])).host = (mkReq "PUT" []).host := by
  refine ⟨by decide, ?_⟩
  exact ((c1_forwarded_request_preserved baseWorld baseEnv (mkReq "PUT" [])
    (toOutRequest (mkReq "PUT" []))).1 (by decide)).1

theorem stageFinal_key (w : World) (env : EnvCfg) (req : HttpRequest)
    (key : String) (f : FileRef) (r : Option ParsedRange) (ops : List StoreOp) :
    (stageFinal w env req key f r ops).key = some key := by
  unfold stageFinal
  dsimp only
  repeat' split
  all_goals
    first
    | rfl
    | (unfold missResult; dsimp only; split <;> rfl)

/-- C2 counterexample: with a pattern whose whole match on path ab is ab
and whose first capture group is b, the derived cache key is ab — element 0
of the exec result — and not the capture group b the claim requires. -/
theorem c2_counterexample :
    (handleRequest worldC2 baseEnv reqAB).key = some "ab"
      ∧ specCacheKeyPath (worldC2.execGET "ab") = some "b"
      ∧ ("ab" : String) ≠ "b" := by
  refine ⟨by decide, by decide, by decide⟩

/-- C2 (amended): for every cacheable GET with no whitelisted query
parameters present, the derived cache key is the WHOLE matched text
(element 0 of the JS match array), not the first capture group. -/
theorem c2_key_is_whole_match (w : World) (env : EnvCfg) (req : HttpRequest)
    (m0 : String) (gs : List (Option String))
    (hmeth : req.method = "GET")
    (hexec : w.execGET ((w.decodeURIComponent req.pathname).drop 1) = some (m0, gs))
    (hm : m0 ≠ "")
    (hparams : whitelistedParams env req.searchParams = []) :
    (handleRequest w env req).key = some m0 := by
  have hem : execMatch w req.method req.pathname = some m0 := by
    unfold execMatch
    rw [hmeth]
    simp [hexec]
  unfold handleRequest
  dsimp only
  rw [hem, hmeth, hparams]
  simp only [strOptTruthy, hm, decide_not]
  simp only [String.append_empty, List.length_nil, gt_iff_lt, lt_irrefl, if_false]
  split
  · simp_all
  · split
    · rfl
    · split
      · rfl
      · split
        · rfl
        · exact stageFinal_key w env req m0 _ _ _

theorem stageRange_skip (w : World) (req : HttpRequest) (key : String)
    (hrange : strOptTruthy (headersGet req.headers "range") = false) :
    stageRange w req key = Sum.inr (FileRef.undef, none, []) := by
  unfold stageRange
  split
  · dsimp only
    rw [hrange]
    simp
  · rfl

theorem stageRange_noObject (w : World) (req : HttpRequest) (key : String) (rh : String)
    (hmeth : req.method = "GET")
    (hrangeH : headersGet req.headers "range" = some rh) (hrh : rh ≠ "")
    (hstore : w.store key = none) :
    stageRange w req key = Sum.inr (FileRef.nullF, none, [StoreOp.head key]) := by
  unfold stageRange
  rw [hmeth]
  dsimp only
  rw [hrangeH]
  simp [strOptTruthy, hrh, r2Head, hstore, FileRef.obj?]

theorem stageRange_resolved (w : World) (req : HttpRequest) (key : String) (rh : String)
    (o : StoredObject) (s e : Nat)
    (hmeth : req.method = "GET")
    (hrangeH : headersGet req.headers "range" = some rh) (hrh : rh ≠ "")
    (hstore : w.store key = some o)
    (hparse : w.parseRange o.size rh = ParseRangeResult.ranges "bytes" [(s, e)]) :
    stageRange w req key =
      Sum.inr (FileRef.meta o,
        some (if o.size = e + 1 then ParsedRange.suffix (o.size - s)
              else ParsedRange.offsetLength s (e - s + 1)),
        [StoreOp.head key]) := by
  unfold stageRange
  rw [hmeth]
  dsimp only
  rw [hrangeH]
  simp [strOptTruthy, hrh, r2Head, hstore, FileRef.obj?, hparse]
  by_cases hsz : o.size = e + 1 <;> simp [hsz]

theorem stageRange_416 (w : World) (req : HttpRequest) (key : String) (rh : String)
    (o : StoredObject)
    (hmeth : req.method = "GET")
    (hrangeH : headersGet req.headers "range" = some rh) (hrh : rh ≠ "")
    (hstore : w.store key = some o)
    (hbad : isSingleByteRange (w.parseRange o.size rh) = false) :
    stageRange w req key =
      Sum.inl ({ status := 416, body := some "Range Not Satisfiable" },
        [StoreOp.head key]) := by
  unfold stageRange
  rw [hmeth]
  dsimp only
  rw [hrangeH]
  simp only [strOptTruthy]
  simp [hrh, r2Head, hstore, FileRef.obj?]
  split
  · rename_i s e heq
    rw [heq] at hbad
    simp [isSingleByteRange] at hbad
  · rfl

theorem stageMustMatch_skip (w : World) (key : String) (im : Option String)
    (ius : Option Int) (f : FileRef) (r : Option ParsedRange)
    (him : strOptTruthy im = false) (hius : tsTruthy ius = false) :
    stageMustMatch w key im ius f r = Sum.inr (f, []) := by
  unfold stageMustMatch
  simp [him, hius]

theorem stageMustNotMatch_skip (w : World) (key : String) (inm : Option String)
    (ims : Option Int) (f : FileRef) (r : Option ParsedRange)
    (hinm : strOptTruthy inm = false) (hims : tsTruthy ims = false) :
    stageMustNotMatch w key inm ims f r = Sum.inr (f, []) := by
  unfold stageMustNotMatch
  simp [hinm, hims]

theorem applyIfRange_rangeNone (w : World) (f : FileRef) (ifr : Option String) :
    applyIfRange w f none ifr = none := by
  unfold applyIfRange
  split <;> simp_all

theorem applyIfRange_noToken (w : World) (f : FileRef) (r : Option ParsedRange) :
    applyIfRange w f r none = r := by
  unfold applyIfRange
  split <;> simp_all

theorem privacyGate_public (w : World) (req : HttpRequest) (o : StoredObject)
    (hp : includesPrivate o = false) : privacyGate w req o = GateResult.hit none := by
  unfold privacyGate
  simp [hp]

theorem privacyGate_private_revalidated (w : World) (req : HttpRequest) (o : StoredObject)
    (r : OriginResponse)
    (hp : includesPrivate o = true)
    (hf : w.fetch (probeOut req) = FetchResult.resp r)
    (hs : r.status < 300 ∨ r.status = 304) :
    privacyGate w req o = GateResult.hit (some (probeOut req)) := by
  unfold privacyGate
  rw [hp]
  dsimp only
  rw [hf]
  simp [hs]

theorem handleRequest_plain_get (w : World) (env : EnvCfg) (req : HttpRequest)
    (m0 : String) (gs : List (Option String))
    (hmeth : req.method = "GET")
    (hexec : w.execGET ((w.decodeURIComponent req.pathname).drop 1) = some (m0, gs))
    (hm : m0 ≠ "")
    (hparams : whitelistedParams env req.searchParams = [])
    (hrange : strOptTruthy (headersGet req.headers "range") = false)
    (hIM : strOptTruthy (getHeaderEtag (headersGet req.headers "if-match")) = false)
    (hINM : strOptTruthy (getHeaderEtag (headersGet req.headers "if-none-match")) = false)
    (hIMS : tsTruthy (w.dateParse ((headersGet req.headers "if-modified-since").getD "")) = false)
    (hIUS : tsTruthy (w.dateParse ((headersGet req.headers "if-unmodified-since").getD "")) = false) :
    handleRequest w env req = stageFinal w env req m0 FileRef.undef none [] := by
  have hem : execMatch w req.method req.pathname = some m0 := by
    unfold execMatch
    rw [hmeth]
    simp [hexec]
  unfold handleRequest
  dsimp only
  rw [hem, hmeth, hparams]
  simp only [strOptTruthy, hm, decide_not]
  simp only [Option.getD_some, String.append_empty, List.length_nil, gt_iff_lt,
    lt_irrefl, if_false]
  split
  · simp_all
  · rw [stageRange_skip w req m0 hrange]
    dsimp only
    rw [applyIfRange_rangeNone, stageMustMatch_skip w m0 _ _ _ _ hIM hIUS]
    dsimp only
    rw [stageMustNotMatch_skip w m0 _ _ _ _ hINM hIMS]
    dsimp only
    simp

theorem handleRequest_range_get (w : World) (env : EnvCfg) (req : HttpRequest)
    (m0 : String) (gs : List (Option String)) (rh : String) (o : StoredObject) (s e : Nat)
    (hmeth : req.method = "GET")
    (hexec : w.execGET ((w.decodeURIComponent req.pathname).drop 1) = some (m0, gs))
    (hm : m0 ≠ "")
    (hparams : whitelistedParams env req.searchParams = [])
    (hrangeH : headersGet req.headers "range" = some rh) (hrh : rh ≠ "")
    (hstore : w.store m0 = some o)
    (hparse : w.parseRange o.size rh = ParseRangeResult.ranges "bytes" [(s, e)])
    (hIM : strOptTruthy (getHeaderEtag (headersGet req.headers "if-match")) = false)
    (hINM : strOptTruthy (getHeaderEtag (headersGet req.headers "if-none-match")) = false)
    (hIMS : tsTruthy (w.dateParse ((headersGet req.headers "if-modified-since").getD "")) = false)
    (hIUS : tsTruthy (w.dateParse ((headersGet req.headers "if-unmodified-since").getD "")) = false) :
    handleRequest w env req =
      stageFinal w env req m0 (FileRef.meta o)
        (applyIfRange w (FileRef.meta o)
          (some (if o.size = e + 1 then ParsedRange.suffix (o.size - s)
                 else ParsedRange.offsetLength s (e - s + 1)))
          (headersGet req.headers "if-range"))
        [StoreOp.head m0] := by
  have hem : execMatch w req.method req.pathname = some m0 := by
    unfold execMatch
    rw [hmeth]
    simp [hexec]
  unfold handleRequest
  dsimp only
  rw [hem, hmeth, hparams]
  simp only [strOptTruthy, hm, decide_not]
  simp only [Option.getD_some, String.append_empty, List.length_nil, gt_iff_lt,
    lt_irrefl, if_false]
  split
  · simp_all
  · rw [stageRange_resolved w req m0 rh o s e hmeth hrangeH hrh hstore hparse]
    dsimp only
    rw [stageMustMatch_skip w m0 _ _ _ _ hIM hIUS]
    dsimp only
    rw [stageMustNotMatch_skip w m0 _ _ _ _ hINM hIMS]
    dsimp only
    simp

theorem stageFinal_undef_hit (w : World) (env : EnvCfg) (req : HttpRequest)
    (key : String) (o : StoredObject) (range : Option ParsedRange) (ops : List StoreOp)
    (probe : Option OutRequest)
    (hstore : w.store key = some o)
    (hgate : privacyGate w req o = GateResult.hit probe) :
    stageFinal w env req key FileRef.undef range ops =
      { response := { status := if range.isSome then 206 else 200,
                      body := if o.size ≠ 0 then some (sliceBody o.body range) else none,
                      headers := assembleHeaders w env o range },
        key := some key, storeOps := (ops ++ [StoreOp.head key]) ++ [StoreOp.get key {} range],
        probeReq := probe, servedFromStore := true } := by
  unfold stageFinal hitResponse
  simp [r2Head, r2Get, hstore, hgate, onlyIfPasses, FileRef.hasBody, FileRef.obj?]

theorem stageFinal_meta_hit (w : World) (env : EnvCfg) (req : HttpRequest)
    (key : String) (o : StoredObject) (range : Option ParsedRange) (ops : List StoreOp)
    (probe : Option OutRequest)
    (hstore : w.store key = some o)
    (hgate : privacyGate w req o = GateResult.hit probe) :
    stageFinal w env req key (FileRef.meta o) range ops =
      { response := { status := if range.isSome then 206 else 200,
                      body := if o.size ≠ 0 then some (sliceBody o.body range) else none,
                      headers := assembleHeaders w env o range },
        key := some key, storeOps := ops ++ [StoreOp.get key {} range],
        probeReq := probe, servedFromStore := true } := by
  unfold stageFinal hitResponse
  simp [r2Get, hstore, hgate, onlyIfPasses, FileRef.hasBody, FileRef.obj?]

theorem stageFinal_nullF_miss (w : World) (env : EnvCfg) (req : HttpRequest)
    (key : String) (ops : List StoreOp)
    (hstore : w.store key = none) :
    stageFinal w env req key FileRef.nullF none ops =
      missResult w req key (ops ++ [StoreOp.head key]) := by
  unfold stageFinal
  simp [r2Head, hstore]

theorem missResult_fields (w : World) (req : HttpRequest) (key : String)
    (ops : List StoreOp) :
    (missResult w req key ops).response =
        (match w.fetch (missOut req) with
         | FetchResult.err _ => { status := 521, body := none }
         | FetchResult.resp r => originToResponse r)
      ∧ (missResult w req key ops).originReq = some (missOut req)
      ∧ (missResult w req key ops).servedFromStore = false := by
  unfold missResult
  dsimp only
  split <;> simp_all

theorem stageMustMatch_412 (w : World) (key : String) (v : String)
    (ius : Option Int) (f : FileRef) (r : Option ParsedRange) (o : StoredObject)
    (hv : v ≠ "")
    (hius : tsTruthy ius = false)
    (hstore : w.store key = some o)
    (hne : o.etag ≠ v) :
    stageMustMatch w key (some v) ius f r =
      Sum.inl ({ status := 412, body := some "Precondition Failed" },
        [StoreOp.get key { etagMatches := some v } r]) := by
  unfold stageMustMatch
  simp only [strOptTruthy, hv, decide_not, hius]
  simp only [r2Get, hstore, onlyIfPasses, hne]
  simp [FileRef.hasBody, hne]

theorem stageMustNotMatch_304 (w : World) (key : String) (v : String)
    (ims : Option Int) (f : FileRef) (r : Option ParsedRange) (o : StoredObject)
    (hv : v ≠ "")
    (hstore : w.store key = some o)
    (heq : o.etag = v) :
    stageMustNotMatch w key (some v) ims f r =
      Sum.inl ({ status := 304, body := none },
        [StoreOp.get key { etagDoesNotMatch := some v } r]) := by
  unfold stageMustNotMatch
  simp only [strOptTruthy, hv, decide_not]
  simp only [r2Get, hstore, onlyIfPasses, heq]
  simp [FileRef.hasBody]

theorem applyIfRange_eval (w : World) (o : StoredObject) (r : ParsedRange) (tok : String)
    (htok : tok ≠ "") :
    applyIfRange w (FileRef.meta o) (some r) (some tok) =
      (if (w.dateParse tok = none ∨ ∃ d, w.dateParse tok = some d ∧ o.uploaded < d)
          ∧ (jsStartsWith tok "W/" = true ∨ tok ≠ httpEtag o)
       then none else some r) := by
  unfold applyIfRange
  dsimp only [FileRef.obj?]
  rcases hd : w.dateParse tok with _ | d
  · simp only [htok, hd]
    by_cases hx : jsStartsWith tok "W/" = true ∨ tok ≠ httpEtag o <;> simp [hx, htok]
  · simp only [htok, hd]
    by_cases hcmp : o.uploaded < d
    · simp only [hcmp]
      by_cases hx : jsStartsWith tok "W/" = true ∨ tok ≠ httpEtag o <;>
        simp [hx, hcmp, htok]
    · simp [hcmp, htok]

/-- C3 counterexample: the If-Range token parses to timestamp 1000,
strictly OLDER than the upload time 2000, is not weak and differs from the
entity-tag, so the claim demands the range be discarded and a full-body 200
returned; the code instead honors the range and answers 206. -/
theorem c3_counterexample :
    (handleRequest worldA baseEnv
        (mkReq "GET" [("range", "bytes=0-0"), ("if-range", "t1000")])).response.status = 206
      ∧ worldA.dateParse "t1000" = some 1000
      ∧ (1000 : Int) < objA.uploaded
      ∧ jsStartsWith "t1000" "W/" = false
      ∧ "t1000" ≠ httpEtag objA := by
  refine ⟨by decide, by decide, by decide, by decide, by decide⟩

/-- C3 (corrected): for a GET with stored object, resolved range and an
If-Range header, the range is discarded exactly when (the token does not
parse as a timestamp OR the parsed timestamp is strictly NEWER than the
object's upload time) AND (the token is weak-prefixed OR differs from the
quoted entity-tag); when the parsed timestamp is not newer, the range is
honored unconditionally (206 when honored, 200 when discarded). -/
theorem c3_if_range_discards_iff_newer (w : World) (env : EnvCfg) (req : HttpRequest)
    (m0 : String) (gs : List (Option String)) (rh : String) (o : StoredObject)
    (s e : Nat) (tok : String)
    (hmeth : req.method = "GET")
    (hexec : w.execGET ((w.decodeURIComponent req.pathname).drop 1) = some (m0, gs))
    (hm : m0 ≠ "")
    (hparams : whitelistedParams env req.searchParams = [])
    (hrangeH : headersGet req.headers "range" = some rh) (hrh : rh ≠ "")
    (hstore : w.store m0 = some o)
    (hparse : w.parseRange o.size rh = ParseRangeResult.ranges "bytes" [(s, e)])
    (hIM : strOptTruthy (getHeaderEtag (headersGet req.headers "if-match")) = false)
    (hINM : strOptTruthy (getHeaderEtag (headersGet req.headers "if-none-match")) = false)
    (hIMS : tsTruthy (w.dateParse ((headersGet req.headers "if-modified-since").getD "")) = false)
    (hIUS : tsTruthy (w.dateParse ((headersGet req.headers "if-unmodified-since").getD "")) = false)
    (hifr : headersGet req.headers "if-range" = some tok) (htok : tok ≠ "")
    (hpriv : includesPrivate o = false) :
    (handleRequest w env req).response.status =
      (if (w.dateParse tok = none ∨ ∃ d, w.dateParse tok = some d ∧ o.uploaded < d)
          ∧ (jsStartsWith tok "W/" = true ∨ tok ≠ httpEtag o)
       then 200 else 206) := by
  rw [handleRequest_range_get w env req m0 gs rh o s e hmeth hexec hm hparams hrangeH
    hrh hstore hparse hIM hINM hIMS hIUS]
  rw [hifr, applyIfRange_eval w o _ tok htok]
  by_cases hc : (w.dateParse tok = none ∨ ∃ d, w.dateParse tok = some d ∧ o.uploaded < d)
      ∧ (jsStartsWith tok "W/" = true ∨ tok ≠ httpEtag o)
  · rw [if_pos hc, if_pos hc,
      stageFinal_meta_hit w env req m0 o none [StoreOp.head m0] none hstore
        (privacyGate_public w req o hpriv)]
    simp
  · rw [if_neg hc, if_neg hc,
      stageFinal_meta_hit w env req m0 o _ [StoreOp.head m0] none hstore
        (privacyGate_public w req o hpriv)]
    simp

theorem getHeaderEtag_some (v : String) :
    getHeaderEtag (some v) = some (stripEdgeQuotes (jsTrim v)) := rfl

theorem missHeaders_no_range (hs : List (String × String)) :
    ∀ p ∈ missHeaders hs, p.1 ≠ "range" := by
  intro p hp
  have h := (List.mem_filter.mp hp).2
  simpa using h

theorem handleRequest_range_noObject (w : World) (env : EnvCfg) (req : HttpRequest)
    (m0 : String) (gs : List (Option String)) (rh : String)
    (hmeth : req.method = "GET")
    (hexec : w.execGET ((w.decodeURIComponent req.pathname).drop 1) = some (m0, gs))
    (hm : m0 ≠ "")
    (hparams : whitelistedParams env req.searchParams = [])
    (hrangeH : headersGet req.headers "range" = some rh) (hrh : rh ≠ "")
    (hstore : w.store m0 = none)
    (hIM : strOptTruthy (getHeaderEtag (headersGet req.headers "if-match")) = false)
    (hINM : strOptTruthy (getHeaderEtag (headersGet req.headers "if-none-match")) = false)
    (hIMS : tsTruthy (w.dateParse ((headersGet req.headers "if-modified-since").getD "")) = false)
    (hIUS : tsTruthy (w.dateParse ((headersGet req.headers "if-unmodified-since").getD "")) = false) :
    handleRequest w env req =
      missResult w req m0 [StoreOp.head m0, StoreOp.head m0] := by
  have hem : execMatch w req.method req.pathname = some m0 := by
    unfold execMatch
    rw [hmeth]
    simp [hexec]
  unfold handleRequest
  dsimp only
  rw [hem, hmeth, hparams]
  simp only [strOptTruthy, hm, decide_not]
  simp only [Option.getD_some, String.append_empty, List.length_nil, gt_iff_lt,
    lt_irrefl, if_false]
  split
  · simp_all
  · rw [stageRange_noObject w req m0 rh hmeth hrangeH hrh hstore]
    dsimp only
    rw [applyIfRange_rangeNone, stageMustMatch_skip w m0 _ _ _ _ hIM hIUS]
    dsimp only
    rw [stageMustNotMatch_skip w m0 _ _ _ _ hINM hIMS]
    dsimp only
    rw [show [StoreOp.head m0] ++ [] ++ [] = [StoreOp.head m0] by simp,
      stageFinal_nullF_miss w env req m0 [StoreOp.head m0] hstore]
    rfl

/-- C4 counterexample: a cacheable GET carrying a Range header against an
empty store is answered 200 after being forwarded to the origin as a miss —
not the terminal 400 the claim requires. -/
theorem c4_counterexample :
    (handleRequest baseWorld baseEnv (mkReq "GET" [("range", "bytes=0-0")])).response.status
        = 200
      ∧ (handleRequest baseWorld baseEnv
          (mkReq "GET" [("range", "bytes=0-0")])).originReq.isSome = true
      ∧ baseWorld.store "pic" = none := by
  refine ⟨by decide, by decide, by decide⟩

/-- C4 (amended): for every cacheable GET carrying a Range header whose
cache key has no object in the store, the range is never resolved and the
request is forwarded to the origin as a miss with the range and conditional
headers stripped; the origin's response (or a 521 on network failure) is
returned, and no worker-generated 400 occurs. -/
theorem c4_absent_object_range_is_miss (w : World) (env : EnvCfg) (req : HttpRequest)
    (m0 : String) (gs : List (Option String)) (rh : String)
    (hmeth : req.method = "GET")
    (hexec : w.execGET ((w.decodeURIComponent req.pathname).drop 1) = some (m0, gs))
    (hm : m0 ≠ "")
    (hparams : whitelistedParams env req.searchParams = [])
    (hrangeH : headersGet req.headers "range" = some rh) (hrh : rh ≠ "")
    (hstore : w.store m0 = none)
    (hIM : strOptTruthy (getHeaderEtag (headersGet req.headers "if-match")) = false)
    (hINM : strOptTruthy (getHeaderEtag (headersGet req.headers "if-none-match")) = false)
    (hIMS : tsTruthy (w.dateParse ((headersGet req.headers "if-modified-since").getD "")) = false)
    (hIUS : tsTruthy (w.dateParse ((headersGet req.headers "if-unmodified-since").getD "")) = false) :
    (handleRequest w env req).originReq = some (missOut req)
      ∧ (∀ p ∈ (missOut req).headers, p.1 ≠ "range")
      ∧ (handleRequest w env req).response =
          (match w.fetch (missOut req) with
           | FetchResult.err _ => { status := 521, body := none }
           | FetchResult.resp r => originToResponse r) := by
  rw [handleRequest_range_noObject w env req m0 gs rh hmeth hexec hm hparams hrangeH
    hrh hstore hIM hINM hIMS hIUS]
  refine ⟨(missResult_fields w req m0 _).2.1, ?_, (missResult_fields w req m0 _).1⟩
  intro p hp
  exact missHeaders_no_range req.headers p hp

/-- C5 counterexample: a HEAD request whose Range header parses to two
ranges is served 200 from the store, because range parsing (worker.ts
line 75) runs only for GET — the claim's universal 416 fails. -/
theorem c5_counterexample :
    (handleRequest worldA baseEnv (mkReq "HEAD" [("range", "multi")])).response.status = 200
      ∧ worldA.parseRange objA.size "multi" = ParseRangeResult.ranges "bytes" [(0, 0), (2, 2)]
      ∧ worldA.store "pic" = some objA := by
  refine ⟨by decide, by decide, by decide⟩

/-- C5 (amended): for every GET whose cache key has a stored object and
whose Range header does not parse as a single bytes range (more than one
range, a non-bytes unit, malformed, or unsatisfiable), the response is the
terminal 416 with body Range Not Satisfiable and nothing is forwarded to
the origin. -/
theorem c5_416_for_get_with_object (w : World) (env : EnvCfg) (req : HttpRequest)
    (m0 : String) (gs : List (Option String)) (rh : String) (o : StoredObject)
    (hmeth : req.method = "GET")
    (hexec : w.execGET ((w.decodeURIComponent req.pathname).drop 1) = some (m0, gs))
    (hm : m0 ≠ "")
    (hparams : whitelistedParams env req.searchParams = [])
    (hrangeH : headersGet req.headers "range" = some rh) (hrh : rh ≠ "")
    (hstore : w.store m0 = some o)
    (hbad : isSingleByteRange (w.parseRange o.size rh) = false) :
    (handleRequest w env req).response =
        { status := 416, body := some "Range Not Satisfiable" }
      ∧ (handleRequest w env req).originReq = none := by
  have hem : execMatch w req.method req.pathname = some m0 := by
    unfold execMatch
    rw [hmeth]
    simp [hexec]
  unfold handleRequest
  dsimp only
  rw [hem, hmeth, hparams]
  simp only [strOptTruthy, hm, decide_not]
  simp only [Option.getD_some, String.append_empty, List.length_nil, gt_iff_lt,
    lt_irrefl, if_false]
  split
  · simp_all
  · rw [stageRange_416 w req m0 rh o hmeth hrangeH hrh hstore hbad]
    exact ⟨rfl, rfl⟩

/-- C6 counterexample: a failing If-Match yields status 412 with body
Precondition Failed — a non-empty body, contradicting the claim's empty
body. -/
theorem c6_counterexample :
    (handleRequest worldA baseEnv (mkReq "GET" [("if-match", "xyz")])).response.status = 412
      ∧ (handleRequest worldA baseEnv (mkReq "GET" [("if-match", "xyz")])).response.body
          = some "Precondition Failed"
      ∧ some "Precondition Failed" ≠ (none : Option String)
      ∧ some "Precondition Failed" ≠ some "" := by
  refine ⟨by decide, by decide, by decide, by decide⟩

/-- C6 (amended): for every cacheable GET presenting an If-Match whose
stripped value differs from the stored object's entity-tag, the worker
immediately returns 412 with body Precondition Failed: no origin request,
no probe, and the store trace holds exactly the single must-match
conditional get, so no must-not-match evaluation occurs. -/
theorem c6_if_match_mismatch_412 (w : World) (env : EnvCfg) (req : HttpRequest)
    (m0 : String) (gs : List (Option String)) (v : String) (o : StoredObject)
    (hmeth : req.method = "GET")
    (hexec : w.execGET ((w.decodeURIComponent req.pathname).drop 1) = some (m0, gs))
    (hm : m0 ≠ "")
    (hparams : whitelistedParams env req.searchParams = [])
    (hrange : strOptTruthy (headersGet req.headers "range") = false)
    (hIMh : headersGet req.headers "if-match" = some v)
    (hv : stripEdgeQuotes (jsTrim v) ≠ "")
    (hIUS : tsTruthy (w.dateParse ((headersGet req.headers "if-unmodified-since").getD "")) = false)
    (hstore : w.store m0 = some o)
    (hne : o.etag ≠ stripEdgeQuotes (jsTrim v)) :
    (handleRequest w env req).response =
        { status := 412, body := some "Precondition Failed" }
      ∧ (handleRequest w env req).originReq = none
      ∧ (handleRequest w env req).probeReq = none
      ∧ (handleRequest w env req).storeOps =
          [StoreOp.get m0 { etagMatches := some (stripEdgeQuotes (jsTrim v)) } none] := by
  have hem : execMatch w req.method req.pathname = some m0 := by
    unfold execMatch
    rw [hmeth]
    simp [hexec]
  unfold handleRequest
  dsimp only
  rw [hem, hmeth, hparams]
  simp only [strOptTruthy, hm, decide_not]
  simp only [Option.getD_some, String.append_empty, List.length_nil, gt_iff_lt,
    lt_irrefl, if_false]
  split
  · simp_all
  · rw [stageRange_skip w req m0 hrange]
    dsimp only
    rw [applyIfRange_rangeNone, hIMh, getHeaderEtag_some v,
      stageMustMatch_412 w m0 (stripEdgeQuotes (jsTrim v)) _ _ _ o hv hIUS hstore hne]
    dsimp only
    simp

/-- C7 (code bug): getHeaderEtag does not treat a weak If-Match as
absent — it only strips a trailing quote, leaving the truthy mangled token,
which keys a must-match conditional fetch that fails against the stored
entity-tag and produces a 412.  This contradicts the claim and the source's
own comment (worker.ts lines 61-62) that weak headers are silently
ignored. -/
theorem c7_weak_if_match_not_ignored :
    getHeaderEtag (some "W/\"deadbeef\"") = some "W/\"deadbeef"
      ∧ strOptTruthy (getHeaderEtag (some "W/\"deadbeef\"")) = true
      ∧ objA.etag = "deadbeef"
      ∧ (handleRequest worldA baseEnv
          (mkReq "GET" [("if-match", "W/\"deadbeef\"")])).response.status = 412 := by
  refine ⟨by decide, by decide, by decide, by decide⟩

/-- C8 (confirmed): when both If-None-Match and If-Modified-Since are
present and the stored object's entity-tag equals the stripped
If-None-Match value, the response is 304 with empty body; the
If-Modified-Since value is ignored entirely (the theorem constrains it in
no way), and the only conditional store get is keyed on
etagDoesNotMatch. -/
theorem c8_inm_match_304 (w : World) (env : EnvCfg) (req : HttpRequest)
    (m0 : String) (gs : List (Option String)) (v msv : String) (o : StoredObject)
    (hmeth : req.method = "GET")
    (hexec : w.execGET ((w.decodeURIComponent req.pathname).drop 1) = some (m0, gs))
    (hm : m0 ≠ "")
    (hparams : whitelistedParams env req.searchParams = [])
    (hrange : strOptTruthy (headersGet req.headers "range") = false)
    (hIM : strOptTruthy (getHeaderEtag (headersGet req.headers "if-match")) = false)
    (hIUS : tsTruthy (w.dateParse ((headersGet req.headers "if-unmodified-since").getD "")) = false)
    (hINMh : headersGet req.headers "if-none-match" = some v)
    (hv : stripEdgeQuotes (jsTrim v) ≠ "")
    (_hIMSh : headersGet req.headers "if-modified-since" = some msv)
    (hstore : w.store m0 = some o)
    (hetag : o.etag = stripEdgeQuotes (jsTrim v)) :
    (handleRequest w env req).response = { status := 304, body := none }
      ∧ (handleRequest w env req).originReq = none
      ∧ (handleRequest w env req).storeOps =
          [StoreOp.get m0 { etagDoesNotMatch := some (stripEdgeQuotes (jsTrim v)) } none] := by
  have hem : execMatch w req.method req.pathname = some m0 := by
    unfold execMatch
    rw [hmeth]
    simp [hexec]
  unfold handleRequest
  dsimp only
  rw [hem, hmeth, hparams]
  simp only [strOptTruthy, hm, decide_not]
  simp only [Option.getD_some, String.append_empty, List.length_nil, gt_iff_lt,
    lt_irrefl, if_false]
  split
  · simp_all
  · rw [stageRange_skip w req m0 hrange]
    dsimp only
    rw [applyIfRange_rangeNone, stageMustMatch_skip w m0 _ _ _ _ hIM hIUS]
    dsimp only
    rw [hINMh, getHeaderEtag_some v,
      stageMustNotMatch_304 w m0 (stripEdgeQuotes (jsTrim v)) _ _ _ o hv hstore hetag]
    dsimp only
    simp

/-- C9 (confirmed): a stored object is served from the store as a HIT
(status 200, body fetched from the store, no origin forward) when its
cache-control metadata does not contain private, or when the HEAD probe
(same request, method HEAD, redirect manual) answers with a status < 300
or exactly 304 — in particular a private object whose revalidation returns
200. -/
theorem c9_hit_when_public_or_revalidated (w : World) (env : EnvCfg) (req : HttpRequest)
    (m0 : String) (gs : List (Option String)) (o : StoredObject)
    (hmeth : req.method = "GET")
    (hexec : w.execGET ((w.decodeURIComponent req.pathname).drop 1) = some (m0, gs))
    (hm : m0 ≠ "")
    (hparams : whitelistedParams env req.searchParams = [])
    (hrange : strOptTruthy (headersGet req.headers "range") = false)
    (hIM : strOptTruthy (getHeaderEtag (headersGet req.headers "if-match")) = false)
    (hINM : strOptTruthy (getHeaderEtag (headersGet req.headers "if-none-match")) = false)
    (hIMS : tsTruthy (w.dateParse ((headersGet req.headers "if-modified-since").getD "")) = false)
    (hIUS : tsTruthy (w.dateParse ((headersGet req.headers "if-unmodified-since").getD "")) = false)
    (hstore : w.store m0 = some o)
    (hgate : includesPrivate o = false
      ∨ ∃ r, w.fetch (probeOut req) = FetchResult.resp r
          ∧ (r.status < 300 ∨ r.status = 304)) :
    (handleRequest w env req).response.status = 200
      ∧ (handleRequest w env req).servedFromStore = true
      ∧ (handleRequest w env req).response.body
          = (if o.size ≠ 0 then some o.body else none)
      ∧ (handleRequest w env req).originReq = none := by
  rw [handleRequest_plain_get w env req m0 gs hmeth hexec hm hparams hrange hIM hINM
    hIMS hIUS]
  have hpg : ∃ probe, privacyGate w req o = GateResult.hit probe := by
    rcases hgate with hp | ⟨r, hf, hs⟩
    · exact ⟨none, privacyGate_public w req o hp⟩
    · by_cases hp : includesPrivate o = false
      · exact ⟨none, privacyGate_public w req o hp⟩
      · have hp' : includesPrivate o = true := by
          simpa using hp
        exact ⟨some (probeOut req), privacyGate_private_revalidated w req o r hp' hf hs⟩
  rcases hpg with ⟨probe, hpg⟩
  rw [stageFinal_undef_hit w env req m0 o none [] probe hstore hpg]
  simp [sliceBody]

theorem stageFinal_gets_unconditional (w : World) (env : EnvCfg) (req : HttpRequest)
    (key : String) (f : FileRef) (r : Option ParsedRange) (ops : List StoreOp)
    (k : String) (c : OnlyIf) (rg : Option ParsedRange)
    (hmem : StoreOp.get k c rg ∈ (stageFinal w env req key f r ops).storeOps) :
    StoreOp.get k c rg ∈ ops ∨ c = {} := by
  unfold stageFinal hitResponse missResult at hmem
  dsimp only at hmem
  repeat' split at hmem
  all_goals simp_all [List.mem_append]
  all_goals tauto

/-- C10 (confirmed): an If-Modified-Since or If-Unmodified-Since header
parsing to exactly the epoch (numeric 0) is treated like an absent or
unparseable one: both conditional stages compute the same result as for
none, they skip their conditional store fetch when the companion etag
header is absent (hence no 304 or 412 from this group), and a request
whose conditional headers all collapse this way performs no conditional
store fetch at all. -/
theorem c10_epoch_timestamp_like_absent (w : World) (env : EnvCfg) (req : HttpRequest)
    (key : String) (im inm : Option String) (f : FileRef) (r : Option ParsedRange) :
    stageMustMatch w key im (some 0) f r = stageMustMatch w key im none f r
    ∧ stageMustNotMatch w key inm (some 0) f r = stageMustNotMatch w key inm none f r
    ∧ (strOptTruthy im = false → stageMustMatch w key im (some 0) f r = Sum.inr (f, []))
    ∧ (strOptTruthy inm = false → stageMustNotMatch w key inm (some 0) f r = Sum.inr (f, []))
    ∧ (∀ (m0 : String) (gs : List (Option String)),
        req.method = "GET" →
        w.execGET ((w.decodeURIComponent req.pathname).drop 1) = some (m0, gs) →
        m0 ≠ "" →
        whitelistedParams env req.searchParams = [] →
        strOptTruthy (headersGet req.headers "range") = false →
        strOptTruthy (getHeaderEtag (headersGet req.headers "if-match")) = false →
        strOptTruthy (getHeaderEtag (headersGet req.headers "if-none-match")) = false →
        w.dateParse ((headersGet req.headers "if-modified-since").getD "") = some 0 →
        w.dateParse ((headersGet req.headers "if-unmodified-since").getD "") = some 0 →
        ∀ (k : String) (c : OnlyIf) (rg : Option ParsedRange),
          StoreOp.get k c rg ∈ (handleRequest w env req).storeOps → c = {}) := by
  refine ⟨?_, ?_, ?_, ?_, ?_⟩
  · unfold stageMustMatch
    simp [tsTruthy]
  · unfold stageMustNotMatch
    simp [tsTruthy]
  · intro him
    exact stageMustMatch_skip w key im (some 0) f r him (by simp [tsTruthy])
  · intro hinm
    exact stageMustNotMatch_skip w key inm (some 0) f r hinm (by simp [tsTruthy])
  · intro m0 gs hmeth hexec hm hparams hrange hIM hINM hIMS0 hIUS0 k c rg hmem
    rw [handleRequest_plain_get w env req m0 gs hmeth hexec hm hparams hrange hIM hINM
      (by rw [hIMS0]; simp [tsTruthy]) (by rw [hIUS0]; simp [tsTruthy])] at hmem
    rcases stageFinal_gets_unconditional w env req m0 FileRef.undef none [] k c rg hmem
      with h | h
    · simp at h
    · exact h

/-- C2 witness: instantiates the whole-match key theorem on the concrete
capture-group world. -/
theorem c2_witness :
    reqAB.method = "GET"
      ∧ worldC2.execGET ((worldC2.decodeURIComponent reqAB.pathname).drop 1)
          = some ("ab", [some "b"])
      ∧ ("ab" : String) ≠ ""
      ∧ whitelistedParams baseEnv reqAB.searchParams = []
      ∧ (handleRequest worldC2 baseEnv reqAB).key = some "ab" :=
  ⟨rfl, by decide, by decide, by decide,
    c2_key_is_whole_match worldC2 baseEnv reqAB "ab" [some "b"] rfl (by decide)
      (by decide) (by decide)⟩

/-- C3 witness: instantiates the If-Range gate theorem on a concrete
newer-than-upload token. -/
theorem c3_witness :
    (handleRequest worldA baseEnv
        (mkReq "GET" [("range", "bytes=0-0"), ("if-range", "t3000")])).response.status =
      (if (worldA.dateParse "t3000" = none
            ∨ ∃ d, worldA.dateParse "t3000" = some d ∧ objA.uploaded < d)
          ∧ (jsStartsWith "t3000" "W/" = true ∨ "t3000" ≠ httpEtag objA)
       then 200 else 206) :=
  c3_if_range_discards_iff_newer worldA baseEnv
    (mkReq "GET" [("range", "bytes=0-0"), ("if-range", "t3000")])
    "pic" [] "bytes=0-0" objA 0 0 "t3000"
    rfl (by decide) (by decide) (by decide) (by decide) (by decide) (by decide)
    (by decide) (by decide) (by decide) (by decide) (by decide) (by decide)
    (by decide) (by decide)

/-- C4 witness: instantiates the miss-forward theorem on a concrete
range request against the empty store. -/
theorem c4_witness :
    (handleRequest baseWorld baseEnv (mkReq "GET" [("range", "bytes=0-0")])).originReq
        = some (missOut (mkReq "GET" [("range", "bytes=0-0")]))
      ∧ (∀ p ∈ (missOut (mkReq "GET" [("range", "bytes=0-0")])).headers, p.1 ≠ "range")
      ∧ (handleRequest baseWorld baseEnv (mkReq "GET" [("range", "bytes=0-0")])).response =
          (match baseWorld.fetch (missOut (mkReq "GET" [("range", "bytes=0-0")])) with
           | FetchResult.err _ => { status := 521, body := none }
           | FetchResult.resp r => originToResponse r) :=
  c4_absent_object_range_is_miss baseWorld baseEnv (mkReq "GET" [("range", "bytes=0-0")])
    "pic" [] "bytes=0-0"
    rfl (by decide) (by decide) (by decide) (by decide) (by decide) (by decide)
    (by decide) (by decide) (by decide) (by decide)

/-- C5 witness: instantiates the 416 theorem on a concrete two-range
header. -/
theorem c5_witness :
    (handleRequest worldA baseEnv (mkReq "GET" [("range", "multi")])).response =
        { status := 416, body := some "Range Not Satisfiable" }
      ∧ (handleRequest worldA baseEnv (mkReq "GET" [("range", "multi")])).originReq = none :=
  c5_416_for_get_with_object worldA baseEnv (mkReq "GET" [("range", "multi")])
    "pic" [] "multi" objA
    rfl (by decide) (by decide) (by decide) (by decide) (by decide) (by decide)
    (by decide)

/-- C6 witness: instantiates the 412 theorem on a concrete mismatching
If-Match. -/
theorem c6_witness :
    (handleRequest worldA baseEnv (mkReq "GET" [("if-match", "xyz")])).response =
        { status := 412, body := some "Precondition Failed" }
      ∧ (handleRequest worldA baseEnv (mkReq "GET" [("if-match", "xyz")])).originReq = none
      ∧ (handleRequest worldA baseEnv (mkReq "GET" [("if-match", "xyz")])).probeReq = none
      ∧ (handleRequest worldA baseEnv (mkReq "GET" [("if-match", "xyz")])).storeOps =
          [StoreOp.get "pic" { etagMatches := some (stripEdgeQuotes (jsTrim "xyz")) } none] :=
  c6_if_match_mismatch_412 worldA baseEnv (mkReq "GET" [("if-match", "xyz")])
    "pic" [] "xyz" objA
    rfl (by decide) (by decide) (by decide) (by decide) (by decide) (by decide)
    (by decide) (by decide) (by decide)

/-- C8 witness: instantiates the 304 theorem with both conditional
headers concrete. -/
theorem c8_witness :
    (handleRequest worldA baseEnv
        (mkReq "GET" [("if-none-match", "deadbeef"), ("if-modified-since", "t1000")])).response
        = { status := 304, body := none }
      ∧ (handleRequest worldA baseEnv
          (mkReq "GET" [("if-none-match", "deadbeef"), ("if-modified-since", "t1000")])).originReq
        = none
      ∧ (handleRequest worldA baseEnv
          (mkReq "GET" [("if-none-match", "deadbeef"), ("if-modified-since", "t1000")])).storeOps
        = [StoreOp.get "pic"
            { etagDoesNotMatch := some (stripEdgeQuotes (jsTrim "deadbeef")) } none] :=
  c8_inm_match_304 worldA baseEnv
    (mkReq "GET" [("if-none-match", "deadbeef"), ("if-modified-since", "t1000")])
    "pic" [] "deadbeef" "t1000" objA
    rfl (by decide) (by decide) (by decide) (by decide) (by decide) (by decide)
    (by decide) (by decide) (by decide) (by decide) (by decide)

/-- C9 witness: the spec's scenario — a private object whose origin HEAD
revalidation returns 200 is served from the store. -/
theorem c9_witness :
    (handleRequest worldPriv baseEnv (mkReq "GET" [])).response.status = 200
      ∧ (handleRequest worldPriv baseEnv (mkReq "GET" [])).servedFromStore = true
      ∧ (handleRequest worldPriv baseEnv (mkReq "GET" [])).response.body
          = (if objPriv.size ≠ 0 then some objPriv.body else none)
      ∧ (handleRequest worldPriv baseEnv (mkReq "GET" [])).originReq = none :=
  c9_hit_when_public_or_revalidated worldPriv baseEnv (mkReq "GET" []) "pic" [] objPriv
    rfl (by decide) (by decide) (by decide) (by decide) (by decide) (by decide)
    (by decide) (by decide) (by decide)
    (Or.inr ⟨{ status := 200, body := some "XYZ", headers := [] }, rfl, Or.inl (by decide)⟩)

/-- C10 witness: instantiates the epoch-timestamp theorem at concrete
stage inputs and a concrete request whose two date headers parse to 0. -/
theorem c10_witness :
    stageMustMatch worldA "pic" none (some 0) FileRef.undef none
        = Sum.inr (FileRef.undef, [])
      ∧ stageMustNotMatch worldA "pic" none (some 0) FileRef.undef none
        = Sum.inr (FileRef.undef, [])
      ∧ (∀ (k : String) (c : OnlyIf) (rg : Option ParsedRange),
          StoreOp.get k c rg ∈
            (handleRequest worldA baseEnv
              (mkReq "GET" [("if-modified-since", "t0"), ("if-unmodified-since", "t0")])).storeOps
            → c = {}) :=
  ⟨(c10_epoch_timestamp_like_absent worldA baseEnv
      (mkReq "GET" [("if-modified-since", "t0"), ("if-unmodified-since", "t0")])
      "pic" none none FileRef.undef none).2.2.1 (by decide),
   (c10_epoch_timestamp_like_absent worldA baseEnv
      (mkReq "GET" [("if-modified-since", "t0"), ("if-unmodified-since", "t0")])
      "pic" none none FileRef.undef none).2.2.2.1 (by decide),
   fun k c rg hmem =>
     (c10_epoch_timestamp_like_absent worldA baseEnv
        (mkReq "GET" [("if-modified-since", "t0"), ("if-unmodified-since", "t0")])
        "pic" none none FileRef.undef none).2.2.2.2 "pic" []
       rfl (by decide) (by decide) (by decide) (by decide) (by decide) (by decide)
       (by decide) (by decide) k c rg hmem⟩
